import Mathlib

/-!
Verification of the RexOS emulator bridge (src/ffi/emulator-bridge) against its
natural-language specification.  The C sources are shallowly embedded: pure
computations become Lean functions, and calls into the operating system
(access, fork, waitpid, kill, /proc reads) are abstracted as explicit "world"
records supplying the outcome of each primitive, so that every entry point
becomes a pure function of its inputs and that world.
-/

namespace RexOS

/-- Error codes of `rexos_error_t` (include/emulator_bridge.h:35-46). -/
inductive Err where
  | ok
  | invalidArg
  | notFound
  | permission
  | forkFailed
  | execFailed
  | timeout
  | memory
  | ioError
  | internal
  deriving DecidableEq, Repr

/-- `REXOS_MAX_ARGS` (include/emulator_bridge.h:28). -/
def REXOS_MAX_ARGS : Nat := 64

/-- `REXOS_MAX_ENV` (include/emulator_bridge.h:29). -/
def REXOS_MAX_ENV : Nat := 128

/-- `rexos_emulator_type_t` (include/emulator_bridge.h:55-61). -/
inductive EmuType where
  | retroarch
  | standalone
  | ppsspp
  | drastic
  | custom
  deriving DecidableEq, Repr

/-- `rexos_launch_config_t` (include/emulator_bridge.h:90-125).  The C
`args[REXOS_MAX_ARGS]` array together with `arg_count` is modelled as the list
`args` (the count is its length); the `env[REXOS_MAX_ENV]` array with
`env_count` is modelled as the list `env`, whose entries are the code-unit
sequences stored in the fixed `char key[256]` / `char value[1024]` buffers. -/
structure Config where
  type : EmuType
  executable : String
  rom_path : String
  core_path : String
  config_path : String
  args : List String
  env : List (List Char × List Char)
  fullscreen : Bool
  verbose : Bool
  use_32bit : Bool
  load_state_slot : Int
  cpu_affinity : Int
  nice_value : Int
  realtime_priority : Bool
  deriving DecidableEq, Repr

/-- `rexos_launch_config_init` (emulator_bridge.c:79-92): memset to zero, then
the listed defaults. -/
def rexos_launch_config_init : Config where
  type := .retroarch
  executable := ""
  rom_path := ""
  core_path := ""
  config_path := ""
  args := []
  env := []
  fullscreen := true
  verbose := false
  use_32bit := false
  load_state_slot := -1
  cpu_affinity := -1
  nice_value := 0
  realtime_priority := false

/-- `rexos_launch_config_add_arg` (emulator_bridge.c:94-104).  NULL pointers
are modelled as `none`.  Every failure path returns -1 before any mutation, so
the config comes back unchanged there.  The unchecked strdup of the argument is
assumed to succeed (its failure path also returns -1 with the count
unchanged). -/
def rexos_launch_config_add_arg (config : Option Config) (arg : Option String) :
    Int × Option Config :=
  match config, arg with
  | some c, some a =>
    if c.args.length ≥ REXOS_MAX_ARGS - 1 then (-1, some c)
    else (0, some { c with args := c.args ++ [a] })
  | c, _ => (-1, c)

/-- `rexos_launch_config_add_env` (emulator_bridge.c:106-119).  The key and
value are written with `strncpy(dst, src, sizeof dst - 1)` into
zero-initialised fixed buffers `char key[256]` / `char value[1024]`
(include/emulator_bridge.h:82-85), so the stored strings are the inputs
truncated to 255 resp. 1023 code units. -/
def rexos_launch_config_add_env (config : Option Config)
    (key value : Option (List Char)) : Int × Option Config :=
  match config, key, value with
  | some c, some k, some v =>
    if c.env.length ≥ REXOS_MAX_ENV then (-1, some c)
    else (0, some { c with env := c.env ++ [(k.take 255, v.take 1023)] })
  | c, _, _ => (-1, c)

/-- The decimal rendering of the load-state slot produced by
`snprintf(slot_str, sizeof(slot_str), "%d", slot)` with `char slot_str[8]`
(emulator_bridge.c:193-194): at most 7 characters fit before the NUL. -/
def slotString (slot : Int) : String := (toString slot).take 7

/-- The custom-argument copy loop of `build_argv` (emulator_bridge.c:200-202):
each argument is copied only while the running `argc` is below
`max_args - 2`. -/
def argLoop (args : List String) (argc maxArgs : Nat) : List String :=
  match args with
  | [] => []
  | a :: rest =>
    if argc < maxArgs - 2 then a :: argLoop rest (argc + 1) maxArgs else []

/-- The part of the argv emitted by `build_argv` before the custom arguments
(emulator_bridge.c:163-197): the executable, then the RetroArch-specific
flags when the emulator type is RetroArch. -/
def argvHead (c : Config) : List String :=
  [c.executable] ++
    (if c.type = .retroarch then
      (if c.core_path ≠ "" then ["-L", c.core_path] else []) ++
        (if c.config_path ≠ "" then ["--config", c.config_path] else []) ++
        (if c.fullscreen then ["--fullscreen"] else []) ++
        (if c.verbose then ["-v"] else []) ++
        (if 0 ≤ c.load_state_slot then ["-e", slotString c.load_state_slot]
         else [])
    else [])

/-- `build_argv` (emulator_bridge.c:156-211): head, then the custom arguments
through the capped copy loop (`max_args = 32 + arg_count`), then the ROM path
last when set.  The trailing NULL terminator of the C array is not part of the
list. -/
def build_argv (c : Config) : List String :=
  (argvHead c ++ argLoop c.args (argvHead c).length (32 + c.args.length)) ++
    (if c.rom_path ≠ "" then [c.rom_path] else [])

/-- The argv order stated by the specification for the retroarch variant
(spec §4.2/§8), with the slot rendering amended to the 7-character snprintf
truncation the source performs: executable, `-L core` if set, `--config path`
if set, `--fullscreen` if set, `-v` if verbose, `-e slot` if slot ≥ 0, the
extra arguments in insertion order, the ROM path last if set. -/
def argvSpec (c : Config) : List String :=
  [c.executable] ++
    (if c.core_path ≠ "" then ["-L", c.core_path] else []) ++
    (if c.config_path ≠ "" then ["--config", c.config_path] else []) ++
    (if c.fullscreen then ["--fullscreen"] else []) ++
    (if c.verbose then ["-v"] else []) ++
    (if 0 ≤ c.load_state_slot then ["-e", slotString c.load_state_slot]
     else []) ++
    c.args ++
    (if c.rom_path ≠ "" then [c.rom_path] else [])

/-- The worked example of spec §8. -/
def exampleConfig : Config :=
  { rexos_launch_config_init with
      executable := "/bin/retroarch"
      core_path := "/cores/snes.so"
      rom_path := "/roms/game.sfc"
      fullscreen := true }

/-- A configuration whose load-state slot needs more than 7 decimal digits. -/
def slotOverflowConfig : Config :=
  { rexos_launch_config_init with
      executable := "/bin/retroarch"
      fullscreen := false
      load_state_slot := 10000000 }

/-- A configuration already holding 63 arguments. -/
def argsFull63 : Config :=
  { rexos_launch_config_init with args := List.replicate 63 "a" }

/-- An environment key of exactly 256 code units. -/
def longKey : List Char := List.replicate 256 'k'

/-- Outcomes of the OS primitives `rexos_launch` calls, seen from the parent:
`execOk path` is whether `access(path, X_OK) == 0`, `allocOk` whether the
`calloc` of the argument vector succeeds, and `forkRet` the value `fork()`
returns in the parent (negative on failure, otherwise the child's pid). -/
structure LaunchWorld where
  execOk : String → Bool
  allocOk : Bool
  forkRet : Int

/-- Result of `rexos_launch` from the caller's side: the returned error code,
the value written through the `pid` out-pointer (`none` = the location was
never written and keeps its prior contents), and whether a child process was
created (i.e. whether `fork` succeeded). -/
structure LaunchOut where
  err : Err
  pidOut : Option Int
  childCreated : Bool
  deriving DecidableEq, Repr

/-- `rexos_launch` (emulator_bridge.c:222-272) from the parent's point of
view.  `config = none` / `pidValid = false` model NULL pointer arguments.
The checks happen in source order: NULL pointers, empty executable,
`access(executable, X_OK)`, `build_argv` allocation, `fork`.  Only after a
successful fork does the parent write `*pid = child_pid` and return OK. -/
def rexos_launch (w : LaunchWorld) (config : Option Config) (pidValid : Bool) :
    LaunchOut :=
  match config with
  | none => ⟨.invalidArg, none, false⟩
  | some c =>
    if pidValid = false then ⟨.invalidArg, none, false⟩
    else if c.executable = "" then ⟨.invalidArg, none, false⟩
    else if w.execOk c.executable = false then ⟨.notFound, none, false⟩
    else if w.allocOk = false then ⟨.memory, none, false⟩
    else if w.forkRet < 0 then ⟨.forkFailed, none, false⟩
    else ⟨.ok, some w.forkRet, true⟩

/-- Outcome of one `waitpid(pid, &status, ...)` call: the child exited
normally with the given `WEXITSTATUS` (waitpid returned `pid` and `WIFEXITED`
held), the child terminated without `WIFEXITED` (e.g. killed by a signal),
the child is still running (waitpid returned 0 under `WNOHANG`), or waitpid
itself failed (returned a negative value). -/
inductive PollRes where
  | exited (code : Nat)
  | signaled
  | running
  | fail
  deriving DecidableEq, Repr

/-- The polling loop of `rexos_wait` for a positive timeout
(emulator_bridge.c:286-305): while `elapsed < timeout_ms`, one `WNOHANG`
waitpid (whose outcome at a given elapsed time the oracle `poll` supplies),
then `usleep(10000); elapsed += 10`.  On loop exit the call fails with
Timeout.  The exit code is the value written through the out-pointer
(`none` = never written). -/
def waitPoll (poll : Nat → PollRes) (timeoutMs elapsed : Nat) :
    Err × Option Nat :=
  if _h : elapsed < timeoutMs then
    match poll elapsed with
    | .exited code => (.ok, some code)
    | .signaled => (.ok, none)
    | .running => waitPoll poll timeoutMs (elapsed + 10)
    | .fail => (.ioError, none)
  else (.timeout, none)
termination_by timeoutMs - elapsed
decreasing_by omega

/-- The waitpid behaviour of the environment during one `rexos_wait` call:
`poll e` is the outcome of the `WNOHANG` waitpid issued when the accumulated
elapsed time is `e` milliseconds, and `block` the outcome of a blocking
waitpid (used for negative timeouts; a blocking call never reports
`running`, but the model keeps the case and `rexos_wait` maps it to the C
fall-through). -/
structure WaitWorld where
  poll : Nat → PollRes
  block : PollRes

/-- `rexos_wait` (emulator_bridge.c:274-323).  `timeout_ms = 0` sets
`WNOHANG` and performs the single bottom waitpid non-blockingly;
`timeout_ms > 0` runs the 10 ms polling loop; a negative timeout runs the
bottom waitpid blockingly.  In the bottom block, `result == pid` yields OK
(writing the exit code only when `WIFEXITED`), `result == 0` under `WNOHANG`
yields Timeout, and everything else falls through to IOError. -/
def rexos_wait (w : WaitWorld) (pid timeoutMs : Int) : Err × Option Nat :=
  if pid ≤ 0 then (.invalidArg, none)
  else if timeoutMs = 0 then
    match w.poll 0 with
    | .exited code => (.ok, some code)
    | .signaled => (.ok, none)
    | .running => (.timeout, none)
    | .fail => (.ioError, none)
  else if 0 < timeoutMs then
    waitPoll w.poll timeoutMs.toNat 0
  else
    match w.block with
    | .exited code => (.ok, some code)
    | .signaled => (.ok, none)
    | .running => (.ioError, none)
    | .fail => (.ioError, none)

/-- The waitpid oracle of a process that first reports termination (normal
exit with status `code`) once the elapsed time reaches `T` milliseconds, and
reports "still running" before that. -/
def procPoll (T code : Nat) : Nat → PollRes :=
  fun elapsed => if T ≤ elapsed then .exited code else .running

/-- `rexos_proc_state_t` (include/emulator_bridge.h:66-73). -/
inductive ProcState where
  | unknown
  | running
  | sleeping
  | stopped
  | zombie
  | dead
  deriving DecidableEq, Repr

/-- The fields `rexos_get_process_info` scans from `/proc/<pid>/stat`
(emulator_bridge.c:344-350): the state letter, utime, stime, vsize, rss. -/
structure ProcStatLine where
  stateChar : Char
  utime : Nat
  stime : Nat
  vsize : Nat
  rss : Nat
  deriving DecidableEq, Repr

/-- The OS environment of `rexos_get_process_info`: the process table keyed
by pid (`none` = `/proc/<pid>/stat` does not exist, so `fopen` fails), the
clock-tick rate `sysconf(_SC_CLK_TCK)` and the page size
`sysconf(_SC_PAGESIZE)`. -/
structure InfoWorld where
  procTable : Int → Option ProcStatLine
  clkTck : Nat
  pageSize : Nat

/-- `rexos_process_info_t` (include/emulator_bridge.h:149-156). -/
structure ProcInfo where
  pid : Int
  state : ProcState
  exit_code : Int
  start_time : Nat
  cpu_time_ms : Nat
  memory_kb : Nat
  deriving DecidableEq, Repr

/-- The state-letter switch of `rexos_get_process_info`
(emulator_bridge.c:354-360). -/
def parseStateChar (c : Char) : ProcState :=
  if c = 'R' then .running
  else if c = 'S' then .sleeping
  else if c = 'T' then .stopped
  else if c = 'Z' then .zombie
  else .unknown

/-- `rexos_get_process_info` (emulator_bridge.c:325-371).  `infoValid`
models a non-NULL `info` out-pointer; the struct is memset to zero before
being filled, so an absent `/proc` entry yields a snapshot that is all zero
except for the pid and the `dead` state, returned with OK. -/
def rexos_get_process_info (w : InfoWorld) (pid : Int) (infoValid : Bool) :
    Err × Option ProcInfo :=
  if pid ≤ 0 ∨ infoValid = false then (.invalidArg, none)
  else
    match w.procTable pid with
    | none => (.ok, some ⟨pid, .dead, 0, 0, 0, 0⟩)
    | some st =>
      (.ok, some ⟨pid, parseStateChar st.stateChar, 0, 0,
        (st.utime + st.stime) * 1000 / w.clkTck,
        st.rss * w.pageSize / 1024⟩)

/-- Outcome of a `kill(pid, sig)` call: success, or failure with
`errno = ESRCH` / `EPERM` / anything else. -/
inductive KillRes where
  | delivered
  | esrch
  | eperm
  | otherErr
  deriving DecidableEq, Repr

/-- The kernel's signal-delivery behaviour during a call. -/
structure SigWorld where
  kill : Int → Int → KillRes

/-- `rexos_signal` (emulator_bridge.c:373-391).  The Bool output records
whether `kill(2)` was invoked at all, i.e. whether any delivery was
attempted. -/
def rexos_signal (w : SigWorld) (pid sig : Int) : Err × Bool :=
  if pid ≤ 0 then (.invalidArg, false)
  else
    match w.kill pid sig with
    | .delivered => (.ok, true)
    | .esrch => (.notFound, true)
    | .eperm => (.permission, true)
    | .otherErr => (.ioError, true)

def SIGTERM : Int := 15

def SIGKILL : Int := 9

/-- `rexos_stop` (emulator_bridge.c:393-396). -/
def rexos_stop (w : SigWorld) (pid : Int) : Err × Bool :=
  rexos_signal w pid SIGTERM

/-- `rexos_kill` (emulator_bridge.c:398-401). -/
def rexos_kill (w : SigWorld) (pid : Int) : Err × Bool :=
  rexos_signal w pid SIGKILL

/-- The seven cumulative counters of the first `/proc/stat` line, and equally
the seven static `prev_*` variables of performance.c:22-29. -/
structure CpuTimes where
  user : Nat
  nice : Nat
  system : Nat
  idle : Nat
  iowait : Nat
  irq : Nat
  softirq : Nat
  deriving DecidableEq, Repr

/-- `unsigned long long` subtraction `a - b` modulo 2^64, as performed on the
counter deltas in performance.c:119-125. -/
def usub64 (a b : Nat) : Nat := (a + 2 ^ 64 - b % 2 ^ 64) % 2 ^ 64

/-- The values of the static `prev_*` variables (performance.c:22-29) before
the first read in the process's lifetime: all zero. -/
def initialPrev : CpuTimes := ⟨0, 0, 0, 0, 0, 0, 0⟩

/-- `calculate_cpu_usage` (performance.c:101-142) on a successful
`/proc/stat` read: given the previous static sample and the freshly scanned
counters, the deltas are taken with 64-bit unsigned subtraction, and the
`total` and `busy` sums (performance.c:127-129) are `unsigned long long`
additions, i.e. wrap modulo 2^64 — modular addition is associative, so a
single final reduction equals the C's per-operation wrap.  The function
returns `busy / total * 100` (0 when `total == 0`) together with the updated
static sample.  The C float arithmetic is modelled over ℚ; whether the
result is zero is unaffected by float rounding (a positive busy-to-total
ratio of 64-bit counters never rounds to 0). -/
def calculate_cpu_usage (prev cur : CpuTimes) : ℚ × CpuTimes :=
  let dUser := usub64 cur.user prev.user
  let dNice := usub64 cur.nice prev.nice
  let dSystem := usub64 cur.system prev.system
  let dIdle := usub64 cur.idle prev.idle
  let dIowait := usub64 cur.iowait prev.iowait
  let dIrq := usub64 cur.irq prev.irq
  let dSoftirq := usub64 cur.softirq prev.softirq
  let total : Nat :=
    (dUser + dNice + dSystem + dIdle + dIowait + dIrq + dSoftirq) % 2 ^ 64
  let busy : Nat := (dUser + dNice + dSystem + dIrq + dSoftirq) % 2 ^ 64
  (if total = 0 then 0 else (busy : ℚ) / (total : ℚ) * 100, cur)

/-! ## Helper lemmas -/

/-- The `argc < max_args - 2` cap of the custom-argument loop never fires as
long as the starting `argc` leaves room for all arguments plus two slots. -/
theorem argLoop_all (args : List String) (argc maxArgs : Nat)
    (h : argc + args.length + 2 ≤ maxArgs) : argLoop args argc maxArgs = args := by
  induction args generalizing argc with
  | nil => rfl
  | cons a rest ih =>
    simp only [List.length_cons] at h
    simp only [argLoop]
    rw [if_pos (by omega), ih (argc + 1) (by omega)]

/-- The executable plus all RetroArch flags occupy at most 9 argv slots. -/
theorem argvHead_length_le (c : Config) : (argvHead c).length ≤ 9 := by
  unfold argvHead
  split_ifs <;> simp

/-! ## Claims -/

/-- C1 (amended): for every retroarch-variant configuration, `build_argv`
emits exactly the order the spec states — executable; `-L core` if the core
path is non-empty; `--config path` if set; `--fullscreen` if set; `-v` if
verbose; `-e slot` if a slot ≥ 0 was specified, the slot rendered as decimal
truncated to at most 7 characters (the snprintf buffer holds 8 bytes); the
user arguments in insertion order; the ROM path last if set — and the
spec's worked example yields exactly the listed vector. -/
theorem claim1_retroarch_argv_order :
    (∀ c : Config, c.type = EmuType.retroarch → build_argv c = argvSpec c) ∧
      build_argv exampleConfig =
        ["/bin/retroarch", "-L", "/cores/snes.so", "--fullscreen",
          "/roms/game.sfc"] := by
  constructor
  · intro c h
    unfold build_argv argvSpec
    rw [argLoop_all c.args (argvHead c).length (32 + c.args.length)
      (by have := argvHead_length_le c; omega)]
    unfold argvHead
    rw [if_pos h]
    simp [List.append_assoc]
  · decide

/-- Witness for C1: the spec's worked example is a retroarch config and its
argv agrees with the specified order. -/
theorem claim1_witness :
    exampleConfig.type = EmuType.retroarch ∧
      build_argv exampleConfig = argvSpec exampleConfig :=
  ⟨rfl, claim1_retroarch_argv_order.1 exampleConfig rfl⟩

/-- C1 counterexample: for the slot 10000000 the emitted token is the
7-character truncation "1000000", not the decimal rendering "10000000"
the claim requires. -/
theorem claim1_counterexample :
    build_argv slotOverflowConfig = ["/bin/retroarch", "-e", "1000000"] ∧
      toString slotOverflowConfig.load_state_slot = "10000000" ∧
      ("1000000" : String) ≠ "10000000" :=
  ⟨by decide, by decide, by decide⟩

/-- C5 (amended): `add_arg` rejects insertion exactly once 63 arguments
(`REXOS_MAX_ARGS - 1`) are stored and `add_env` exactly once 128
(`REXOS_MAX_ENV`) are stored, each returning -1 with all previously inserted
entries and the stored counts unchanged; below these bounds both succeed. -/
theorem claim5_capacity_bounds :
    ∀ (c : Config) (a : String) (k v : List Char),
      (c.args.length ≥ REXOS_MAX_ARGS - 1 →
        rexos_launch_config_add_arg (some c) (some a) = (-1, some c)) ∧
      (c.args.length < REXOS_MAX_ARGS - 1 →
        rexos_launch_config_add_arg (some c) (some a) =
          (0, some { c with args := c.args ++ [a] })) ∧
      (c.env.length ≥ REXOS_MAX_ENV →
        rexos_launch_config_add_env (some c) (some k) (some v) =
          (-1, some c)) ∧
      (c.env.length < REXOS_MAX_ENV →
        (rexos_launch_config_add_env (some c) (some k) (some v)).1 = 0) := by
  intro c a k v
  refine ⟨fun h => ?_, fun h => ?_, fun h => ?_, fun h => ?_⟩ <;>
    simp only [rexos_launch_config_add_arg, rexos_launch_config_add_env]
  · rw [if_pos h]
  · rw [if_neg (by omega)]
  · rw [if_pos h]
  · rw [if_neg (by omega)]

/-- Witness for C5: below capacity an insertion succeeds and appends. -/
theorem claim5_witness :
    rexos_launch_config_add_arg (some rexos_launch_config_init) (some "x") =
      (0, some { rexos_launch_config_init with
                   args := rexos_launch_config_init.args ++ ["x"] }) :=
  (claim5_capacity_bounds rexos_launch_config_init "x" [] []).2.1 (by decide)

/-- C5 counterexample: with only 63 arguments stored — strictly fewer than
the claimed capacity of 64 — the insertion is already rejected and the
config is unchanged. -/
theorem claim5_counterexample :
    argsFull63.args.length = 63 ∧ (63 : Nat) < 64 ∧
      rexos_launch_config_add_arg (some argsFull63) (some "x") =
        (-1, some argsFull63) :=
  ⟨by decide, by decide, by rfl⟩

/-- C6 (amended): for every accepted key/value pair, the stored key is the
input truncated to at most 255 code units and the stored value the input
truncated to at most 1023 code units (the 256- and 1024-byte buffers keep a
NUL terminator), and truncation is silent: the call returns 0 (success). -/
theorem claim6_env_truncation :
    ∀ (c : Config) (k v : List Char), c.env.length < REXOS_MAX_ENV →
      rexos_launch_config_add_env (some c) (some k) (some v) =
        (0, some { c with env := c.env ++ [(k.take 255, v.take 1023)] }) := by
  intro c k v h
  simp only [rexos_launch_config_add_env]
  rw [if_neg (by omega)]

/-- Witness for C6: a concrete over-long key is stored truncated, with the
call still succeeding. -/
theorem claim6_witness :
    rexos_launch_config_add_env (some rexos_launch_config_init)
        (some longKey) (some ['v']) =
      (0, some { rexos_launch_config_init with
                   env := rexos_launch_config_init.env ++
                     [(longKey.take 255, (['v'] : List Char).take 1023)] }) :=
  claim6_env_truncation rexos_launch_config_init longKey ['v'] (by decide)

set_option maxRecDepth 4000 in
/-- C6 counterexample: a key of 256 code units is stored truncated to 255
code units, not to the claimed maximum of 256 (under which it would have
been stored whole). -/
theorem claim6_counterexample :
    (rexos_launch_config_add_env (some rexos_launch_config_init)
          (some longKey) (some ['v'])).2 =
        some { rexos_launch_config_init with
                 env := [(List.replicate 255 'k', ['v'])] } ∧
      List.replicate 255 'k' ≠ longKey.take 256 :=
  ⟨by rfl, by decide⟩

/-- C7 (amended): `add_arg` fails (returning -1) when the value is NULL or
the config is NULL, leaving the argument sequence and count unchanged; an
empty value, however, is not rejected: it is accepted and appended. -/
theorem claim7_add_arg_null_reject :
    ∀ (c : Config) (a : Option String),
      (rexos_launch_config_add_arg (some c) none = (-1, some c)) ∧
      (rexos_launch_config_add_arg none a = (-1, none)) ∧
      (c.args.length < REXOS_MAX_ARGS - 1 →
        rexos_launch_config_add_arg (some c) (some "") =
          (0, some { c with args := c.args ++ [""] })) := by
  intro c a
  refine ⟨rfl, by cases a <;> rfl, fun h => ?_⟩
  simp only [rexos_launch_config_add_arg]
  rw [if_neg (by omega)]

/-- Witness for C7: NULL is rejected without mutation; the empty string is
appended with success. -/
theorem claim7_witness :
    rexos_launch_config_add_arg (some rexos_launch_config_init) none =
        (-1, some rexos_launch_config_init) ∧
      rexos_launch_config_add_arg (some rexos_launch_config_init) (some "") =
        (0, some { rexos_launch_config_init with
                     args := rexos_launch_config_init.args ++ [""] }) :=
  ⟨(claim7_add_arg_null_reject rexos_launch_config_init none).1,
    (claim7_add_arg_null_reject rexos_launch_config_init none).2.2 (by decide)⟩

/-- C7 counterexample: the empty string is accepted — the call returns 0 and
appends "" to the argument sequence — where the claim requires a failure
that leaves the config unchanged. -/
theorem claim7_counterexample :
    rexos_launch_config_add_arg (some rexos_launch_config_init) (some "") =
      (0, some { rexos_launch_config_init with args := [""] }) := by
  rfl

/-- If some poll of the 10 ms loop happens while `elapsed < timeoutMs` and
the process has terminated by then, the loop returns OK with the exit
code. -/
theorem waitPoll_procPoll_ok (T code t e : Nat)
    (h : ∃ j : Nat, e + 10 * j < t ∧ T ≤ e + 10 * j) :
    waitPoll (procPoll T code) t e = (.ok, some code) := by
  obtain ⟨j, hjt, hTj⟩ := h
  rw [waitPoll]
  rw [dif_pos (by omega)]
  by_cases hTe : T ≤ e
  · simp [procPoll, hTe]
  · have hrun : procPoll T code e = .running := by
      simp only [procPoll, if_neg hTe]
    rw [hrun]
    exact waitPoll_procPoll_ok T code t (e + 10) ⟨j - 1, by omega, by omega⟩
termination_by t - e
decreasing_by omega

/-- If every poll of the 10 ms loop happens strictly before the process
terminates, the loop runs out its window and fails with Timeout. -/
theorem waitPoll_procPoll_timeout (T code t e : Nat)
    (h : ∀ j : Nat, e + 10 * j < t → e + 10 * j < T) :
    waitPoll (procPoll T code) t e = (.timeout, none) := by
  rw [waitPoll]
  by_cases het : e < t
  · rw [dif_pos het]
    have hrun : procPoll T code e = .running := by
      have := h 0 (by omega)
      simp only [procPoll, if_neg (by omega : ¬ T ≤ e)]
    rw [hrun]
    exact waitPoll_procPoll_timeout T code t (e + 10)
      (fun j hj => by have := h (j + 1) (by omega); omega)
  · rw [dif_neg het]
termination_by t - e
decreasing_by omega

/-- If the first poll of the loop errors, the loop fails with IOError. -/
theorem waitPoll_fail_first (poll : Nat → PollRes) (t : Nat) (ht : 0 < t)
    (h : poll 0 = .fail) : waitPoll poll t 0 = (.ioError, none) := by
  rw [waitPoll, dif_pos ht, h]

/-- C2: `rexos_wait` fails with InvalidArgument on a non-positive handle;
with timeout 0 it performs exactly one non-blocking poll (exit code if the
process has terminated, Timeout if still running, IOError if the poll
primitive errors); with a positive timeout it polls at the fixed 10 ms
interval, returning the true exit code when the process has terminated by
some poll inside the timeout window and Timeout when every poll in the
window precedes termination; with a negative timeout it blocks until the
blocking wait reports the exit (IOError if the blocking wait errors). -/
theorem claim2_wait_semantics :
    ∀ (w : WaitWorld) (pid t : Int) (T code : Nat),
      (pid ≤ 0 → rexos_wait w pid t = (.invalidArg, none)) ∧
      (0 < pid →
        (rexos_wait ⟨procPoll T code, w.block⟩ pid 0 =
            if T = 0 then (.ok, some code) else (.timeout, none)) ∧
        (w.poll 0 = .fail → rexos_wait w pid 0 = (.ioError, none)) ∧
        (0 < t → (∃ k : Nat, 10 * k < t.toNat ∧ T ≤ 10 * k) →
          rexos_wait ⟨procPoll T code, w.block⟩ pid t = (.ok, some code)) ∧
        (0 < t → (∀ k : Nat, 10 * k < t.toNat → 10 * k < T) →
          rexos_wait ⟨procPoll T code, w.block⟩ pid t = (.timeout, none)) ∧
        (0 < t → w.poll 0 = .fail → rexos_wait w pid t = (.ioError, none)) ∧
        (t < 0 →
          rexos_wait ⟨w.poll, .exited code⟩ pid t = (.ok, some code)) ∧
        (t < 0 → w.block = .fail → rexos_wait w pid t = (.ioError, none))) := by
  intro w pid t T code
  constructor
  · intro hpid
    simp [rexos_wait, hpid]
  intro hpid
  have hnle : ¬ pid ≤ 0 := by omega
  refine ⟨?_, ?_, ?_, ?_, ?_, ?_, ?_⟩
  · by_cases hT : T = 0 <;>
      simp [rexos_wait, hnle, procPoll, hT, Nat.pos_of_ne_zero]
  · intro hfail
    simp [rexos_wait, hnle, hfail]
  · intro ht hex
    have hne : t ≠ 0 := by omega
    simp only [rexos_wait, if_neg hnle, if_neg hne, if_pos ht]
    exact waitPoll_procPoll_ok T code t.toNat 0 (by simpa using hex)
  · intro ht hall
    have hne : t ≠ 0 := by omega
    simp only [rexos_wait, if_neg hnle, if_neg hne, if_pos ht]
    exact waitPoll_procPoll_timeout T code t.toNat 0 (by simpa using hall)
  · intro ht hfail
    have hne : t ≠ 0 := by omega
    simp only [rexos_wait, if_neg hnle, if_neg hne, if_pos ht]
    exact waitPoll_fail_first w.poll t.toNat (by omega) hfail
  · intro ht
    have hne : t ≠ 0 := by omega
    have hnlt : ¬ 0 < t := by omega
    simp [rexos_wait, hnle, hne, hnlt]
  · intro ht hblock
    have hne : t ≠ 0 := by omega
    have hnlt : ¬ 0 < t := by omega
    simp [rexos_wait, hnle, hne, hnlt, hblock]

/-- Witness for C2: a process exiting with status 7 at 10 ms is reaped by a
25 ms timed wait. -/
theorem claim2_witness :
    rexos_wait ⟨procPoll 10 7, PollRes.running⟩ 1 25 = (Err.ok, some 7) :=
  ((claim2_wait_semantics ⟨procPoll 10 7, PollRes.running⟩ 1 25 10 7).2
      (by decide)).2.2.1 (by decide) ⟨1, by decide, by decide⟩

/-- C3: `rexos_launch` fails with InvalidArgument when the config is absent
or its executable path is empty, with NotFound when the executable does not
pass the `access(X_OK)` check, with OutOfMemory when the argument-vector
allocation fails, and with ForkFailed when `fork` fails — and in every one
of these failure cases no child process is created. -/
theorem claim3_launch_failure_modes :
    ∀ (w : LaunchWorld) (c : Config),
      (rexos_launch w none true = ⟨.invalidArg, none, false⟩) ∧
      (c.executable = "" →
        rexos_launch w (some c) true = ⟨.invalidArg, none, false⟩) ∧
      (c.executable ≠ "" → w.execOk c.executable = false →
        rexos_launch w (some c) true = ⟨.notFound, none, false⟩) ∧
      (c.executable ≠ "" → w.execOk c.executable = true → w.allocOk = false →
        rexos_launch w (some c) true = ⟨.memory, none, false⟩) ∧
      (c.executable ≠ "" → w.execOk c.executable = true → w.allocOk = true →
        w.forkRet < 0 →
        rexos_launch w (some c) true = ⟨.forkFailed, none, false⟩) := by
  intro w c
  refine ⟨rfl, ?_, ?_, ?_, ?_⟩ <;> intros <;> simp_all [rexos_launch]

/-- Witness for C3: launching a config whose executable fails the access
check reports NotFound with no child created and no pid written. -/
theorem claim3_witness :
    rexos_launch ⟨fun _ => false, true, 5⟩ (some exampleConfig) true =
      ⟨Err.notFound, none, false⟩ :=
  (claim3_launch_failure_modes ⟨fun _ => false, true, 5⟩ exampleConfig).2.2.1
    (by decide) rfl

/-- C4: for every positive pid whose `/proc` entry is absent,
`rexos_get_process_info` succeeds and reports a snapshot that is dead with
exit code 0 and memory 0 (all other numeric fields 0 as well). -/
theorem claim4_info_absent_pid_dead :
    ∀ (w : InfoWorld) (pid : Int), 0 < pid → w.procTable pid = none →
      rexos_get_process_info w pid true =
        (.ok, some ⟨pid, .dead, 0, 0, 0, 0⟩) := by
  intro w pid hpid habs
  simp [rexos_get_process_info, habs, hpid.not_le]

/-- Witness for C4: a never-existing pid 12345 yields OK with a dead,
all-zero snapshot. -/
theorem claim4_witness :
    rexos_get_process_info ⟨fun _ => none, 100, 4096⟩ 12345 true =
      (Err.ok, some ⟨12345, ProcState.dead, 0, 0, 0, 0⟩) :=
  claim4_info_absent_pid_dead ⟨fun _ => none, 100, 4096⟩ 12345 (by decide) rfl

/-- C8 (amended): on the very first read of the process's lifetime the
previous sample is all zero, so the deltas are the full since-boot counters
and the reported percentage is the since-boot ratio busy/total × 100,
computed in unsigned 64-bit arithmetic; it is 0 exactly when the 64-bit sum
of all ticks or the 64-bit sum of the busy ticks (user, nice, system, irq,
softirq) is zero modulo 2^64 — not 0 in general. -/
theorem claim8_first_read_ratio :
    ∀ s : CpuTimes, s.user < 2 ^ 64 → s.nice < 2 ^ 64 → s.system < 2 ^ 64 →
      s.idle < 2 ^ 64 → s.iowait < 2 ^ 64 → s.irq < 2 ^ 64 →
      s.softirq < 2 ^ 64 →
      ((calculate_cpu_usage initialPrev s).1 = 0 ↔
        (s.user + s.nice + s.system + s.idle + s.iowait + s.irq + s.softirq)
            % 2 ^ 64 = 0 ∨
          (s.user + s.nice + s.system + s.irq + s.softirq) % 2 ^ 64 = 0) := by
  intro s h1 h2 h3 h4 h5 h6 h7
  have hu : ∀ a : Nat, a < 2 ^ 64 → usub64 a 0 = a := by
    intro a ha
    unfold usub64
    simp [Nat.add_mod_right]
    omega
  simp only [calculate_cpu_usage, initialPrev]
  rw [hu _ h1, hu _ h2, hu _ h3, hu _ h4, hu _ h5, hu _ h6, hu _ h7]
  by_cases htot : (s.user + s.nice + s.system + s.idle + s.iowait + s.irq +
      s.softirq) % 2 ^ 64 = 0
  · rw [if_pos htot]
    constructor
    · intro _
      exact Or.inl htot
    · intro _
      rfl
  · rw [if_neg htot, mul_eq_zero, div_eq_zero_iff]
    constructor
    · rintro ((h | h) | h)
      · right
        exact_mod_cast h
      · left
        exact_mod_cast h
      · norm_num at h
    · rintro (h | h)
      · left
        right
        exact_mod_cast h
      · left
        left
        exact_mod_cast h

/-- Witness for C8: at user = idle = 2^63 the 64-bit total wraps to 0, so
the first read reports 0 even though 2^63 busy ticks have accumulated —
the program's wrap behaviour, which the theorem's right-hand side
captures. -/
theorem claim8_witness :
    (calculate_cpu_usage initialPrev ⟨2 ^ 63, 0, 0, 2 ^ 63, 0, 0, 0⟩).1 = 0 ↔
      ((2 ^ 63 + 0 + 0 + 2 ^ 63 + 0 + 0 + 0) % 2 ^ 64 = 0 ∨
        (2 ^ 63 + 0 + 0 + 0 + 0 : Nat) % 2 ^ 64 = 0) :=
  claim8_first_read_ratio ⟨2 ^ 63, 0, 0, 2 ^ 63, 0, 0, 0⟩ (by decide)
    (by decide) (by decide) (by decide) (by decide) (by decide) (by decide)

/-- C8 counterexample: the very first read of a system that has accumulated
50 busy and 50 idle ticks since boot reports 50%, not the claimed 0. -/
theorem claim8_counterexample :
    (calculate_cpu_usage initialPrev ⟨50, 0, 0, 50, 0, 0, 0⟩).1 = 50 ∧
      (50 : ℚ) ≠ 0 := by
  constructor
  · norm_num [calculate_cpu_usage, initialPrev, usub64]
  · norm_num

/-- C9: for every non-positive pid and any signal number, `rexos_signal`
returns InvalidArgument without invoking `kill(2)` at all, and so do
`rexos_stop` and `rexos_kill`; no process-group-wide delivery such as
pid = -1 can occur through these entry points. -/
theorem claim9_signal_nonpositive :
    ∀ (w : SigWorld) (pid sig : Int), pid ≤ 0 →
      rexos_signal w pid sig = (.invalidArg, false) ∧
      rexos_stop w pid = (.invalidArg, false) ∧
      rexos_kill w pid = (.invalidArg, false) := by
  intro w pid sig h
  refine ⟨?_, ?_, ?_⟩ <;> simp [rexos_signal, rexos_stop, rexos_kill, h]

/-- Witness for C9: pid -1 (the process-group broadcast pid) is rejected by
all three entry points with no delivery attempted. -/
theorem claim9_witness :
    rexos_signal ⟨fun _ _ => KillRes.delivered⟩ (-1) 9 =
        (Err.invalidArg, false) ∧
      rexos_stop ⟨fun _ _ => KillRes.delivered⟩ (-1) =
        (Err.invalidArg, false) ∧
      rexos_kill ⟨fun _ _ => KillRes.delivered⟩ (-1) =
        (Err.invalidArg, false) :=
  claim9_signal_nonpositive ⟨fun _ _ => KillRes.delivered⟩ (-1) 9 (by decide)

/-- C10: the pid out-location of `rexos_launch` is left unwritten exactly
when the call returns an error — it is written (with the forked child's
pid) if and only if the call returns success. -/
theorem claim10_pid_written_iff_success :
    ∀ (w : LaunchWorld) (config : Option Config) (pidValid : Bool),
      (rexos_launch w config pidValid).pidOut = none ↔
        (rexos_launch w config pidValid).err ≠ Err.ok := by
  intro w config pidValid
  cases config with
  | none => simp [rexos_launch]
  | some c =>
    simp only [rexos_launch]
    split_ifs <;> simp

end RexOS
